import Mathlib

/-!
Shallow embedding of the monarch-money-api client library and proofs about
its session/authentication lifecycle and request-construction layer.

The embedding follows the module implementation (session.js, constants.js,
api.js, login.js) for the package's exported functions, and the standalone
MonarchMoney class file for the session-persistence methods that exist only
there.  Network interaction is modelled by passing the remote response as an
explicit parameter and by returning the request descriptor that would be
dispatched; a thrown JavaScript exception is an `Except.error` value.
-/

namespace MonarchApi

/-- JSON-like values used for GraphQL variable mappings and response payloads.
A JavaScript object literal is a key-ordered association list. -/
inductive GqlVal where
  | null
  | str (s : String)
  | int (n : Int)
  | bool (b : Bool)
  | arr (xs : List GqlVal)
  | obj (fields : List (String × GqlVal))

/-- Assignment `o[k] = v` on a JavaScript object: replaces the value of an
existing key in place, otherwise appends the key at the end. -/
def assocSet {β : Type} : List (String × β) → String → β → List (String × β)
  | [], k, v => [(k, v)]
  | p :: rest, k, v => if p.1 = k then (k, v) :: rest else p :: assocSet rest k v

/-- Property read `o[k]` on a JavaScript object. -/
def assocGet {β : Type} : List (String × β) → String → Option β
  | [], _ => none
  | p :: rest, k => if p.1 = k then some p.2 else assocGet rest k

/-- JavaScript truthiness of a possibly-absent string: `null`, `undefined`
and the empty string are falsy. -/
def jsTruthy : Option String → Bool
  | none => false
  | some s => !(s == "")

/-- constants.js: `AUTH_HEADER_KEY = "Authorization"`. -/
def AUTH_HEADER_KEY : String := "Authorization"

/-- The exception classes of api.js (`RequireMFAException`,
`LoginFailedException`, `RequestFailedException`) plus plain `Error`
(`jsError`) and the runtime `TypeError` and `ReferenceError`. -/
inductive Exn where
  | requireMFA (msg : String)
  | loginFailed (msg : String)
  | requestFailed (payload : GqlVal)
  | jsError (msg : String)
  | typeError (msg : String)
  | referenceError (msg : String)

/-- The credential store of session.js: the module-level `token` variable and
`headers` object. -/
structure Session where
  token : Option String
  headers : List (String × String)

/-- session.js initial state: `headers` starts as the single Client-Platform
entry and `token` as null (the environment-variable bypass is not taken). -/
def initialSession : Session :=
  { token := none, headers := [("Client-Platform", "web")] }

/-- session.js `setToken`: stores the token and sets the Authorization header
to the string `Token ` followed by the token, in one update. -/
def setToken (s : Session) (newToken : String) : Session :=
  { token := some newToken,
    headers := assocSet s.headers AUTH_HEADER_KEY ("Token " ++ newToken) }

/-- A login-endpoint response as observed by login.js: HTTP status, status
text and the token field of the JSON body. -/
structure LoginResponse where
  status : Nat
  statusText : String
  token : String

/-- login.js `loginUser`, from the point the response arrives: status 403
raises `RequireMFAException`, any other non-200 status raises
`LoginFailedException`, and 200 stores the response token via `setToken`.
The returned session is the credential store after the call; on error the
store was not touched. -/
def loginUser (s : Session) (resp : LoginResponse) : Except Exn Session :=
  if resp.status = 403 then
    Except.error (Exn.requireMFA "Multi-Factor Auth Required")
  else if resp.status ≠ 200 then
    Except.error (Exn.loginFailed
      ("HTTP Code " ++ toString resp.status ++ ": " ++ resp.statusText))
  else
    Except.ok (setToken s resp.token)

/-- The credential store after a `loginUser` attempt: unchanged when the call
threw, updated when it succeeded. -/
def loginUserState (s : Session) (resp : LoginResponse) : Session :=
  match loginUser s resp with
  | Except.ok s2 => s2
  | Except.error _ => s

/-- The GraphQL request a query call would dispatch: operation name, the
value passed in the query position, the value passed in the variables
position, and the headers attached to the client. -/
structure RequestDescriptor where
  operationName : String
  query : GqlVal
  vars : GqlVal
  headers : List (String × String)

/-- api.js `getGraphQLClient` + `gqlCall`: reads the current headers, raises
`LoginFailedException` when the Authorization entry is absent (or falsy), and
otherwise dispatches the request with those headers attached.  The returned
descriptor is the dispatched request. -/
def gqlCall (hs : List (String × String)) (operation : String)
    (graphqlQuery : GqlVal) (vars : GqlVal) : Except Exn RequestDescriptor :=
  match assocGet hs AUTH_HEADER_KEY with
  | none => Except.error (Exn.loginFailed
      "Make sure you call login() first or provide a session token!")
  | some a =>
    if a == "" then
      Except.error (Exn.loginFailed
        "Make sure you call login() first or provide a session token!")
    else
      Except.ok { operationName := operation, query := graphqlQuery,
                  vars := vars, headers := hs }

/-- Headers of a store that has been populated by `setToken` on the initial
session: Client-Platform plus the Authorization entry. -/
def authHeaders (t : String) : List (String × String) :=
  (setToken initialSession t).headers

theorem assocGet_assocSet {β : Type} (l : List (String × β)) (k : String) (v : β) :
    assocGet (assocSet l k v) k = some v := by
  induction l with
  | nil => simp [assocSet, assocGet]
  | cons p rest ih =>
    by_cases h : p.1 = k <;> simp [assocSet, assocGet, h, ih]

theorem token_header_ne_empty (t : String) : ("Token " ++ t) ≠ "" := by
  intro h
  have h2 : ("Token " ++ t).data = "".data := congrArg String.data h
  simp [String.data, String.append] at h2

theorem hdrGet_authHeaders (t : String) :
    assocGet (authHeaders t) AUTH_HEADER_KEY = some ("Token " ++ t) := by
  simp [authHeaders, setToken, initialSession, assocGet_assocSet]

theorem gqlCall_authHeaders (t op : String) (q v : GqlVal) :
    gqlCall (authHeaders t) op q v =
      Except.ok { operationName := op, query := q, vars := v,
                  headers := authHeaders t } := by
  simp [gqlCall, hdrGet_authHeaders, token_header_ne_empty t]

/-- Claim C1: after a login attempt in which the login endpoint responds with
HTTP 200 and token `T`, the credential store reports an Authorization header
equal to `Token T`, and every subsequent query call dispatched through the
transport attaches exactly that header. -/
theorem login_success_sets_token_header (s : Session) (r : LoginResponse)
    (T : String) (h200 : r.status = 200) (htok : r.token = T) :
    ∃ s2, loginUser s r = Except.ok s2 ∧
      assocGet s2.headers AUTH_HEADER_KEY = some ("Token " ++ T) ∧
      ∀ (op : String) (q v : GqlVal), ∃ d,
        gqlCall s2.headers op q v = Except.ok d ∧
        d.headers = s2.headers ∧
        assocGet d.headers AUTH_HEADER_KEY = some ("Token " ++ T) := by
  refine ⟨setToken s T, ?_, ?_, ?_⟩
  · simp [loginUser, h200, htok]
  · simp [setToken, assocGet_assocSet]
  · intro op q v
    have hget : assocGet (setToken s T).headers AUTH_HEADER_KEY =
        some ("Token " ++ T) := by
      simp [setToken, assocGet_assocSet]
    refine ⟨{ operationName := op, query := q, vars := v,
              headers := (setToken s T).headers }, ?_, rfl, hget⟩
    simp [gqlCall, hget, token_header_ne_empty T]

/-- Witness for C1 at a concrete response. -/
theorem login_success_sets_token_header_witness :
    ∃ s2, loginUser initialSession
        { status := 200, statusText := "OK", token := "tok123" } = Except.ok s2 ∧
      assocGet s2.headers AUTH_HEADER_KEY = some ("Token " ++ "tok123") ∧
      ∀ (op : String) (q v : GqlVal), ∃ d,
        gqlCall s2.headers op q v = Except.ok d ∧
        d.headers = s2.headers ∧
        assocGet d.headers AUTH_HEADER_KEY = some ("Token " ++ "tok123") :=
  login_success_sets_token_header initialSession
    { status := 200, statusText := "OK", token := "tok123" } "tok123" rfl rfl

/-- Claim C2: a login response of HTTP 403 raises the distinguishable
`RequireMFAException` and leaves the credential store unchanged: no token is
stored and the header mapping gains no Authorization entry. -/
theorem login_403_requires_mfa_preserves_store (s : Session) (r : LoginResponse)
    (h403 : r.status = 403) :
    loginUser s r = Except.error (Exn.requireMFA "Multi-Factor Auth Required") ∧
    loginUserState s r = s ∧
    (assocGet s.headers AUTH_HEADER_KEY = none →
      (loginUserState s r).token = s.token ∧
      assocGet (loginUserState s r).headers AUTH_HEADER_KEY = none) := by
  have herr : loginUser s r =
      Except.error (Exn.requireMFA "Multi-Factor Auth Required") := by
    simp [loginUser, h403]
  have hstate : loginUserState s r = s := by
    simp [loginUserState, herr]
  exact ⟨herr, hstate, fun hnone => by simp [hstate, hnone]⟩

/-- Witness for C2 at a concrete 403 response and the initial store. -/
theorem login_403_requires_mfa_preserves_store_witness :
    loginUser initialSession
        { status := 403, statusText := "Forbidden", token := "" } =
      Except.error (Exn.requireMFA "Multi-Factor Auth Required") ∧
    loginUserState initialSession
        { status := 403, statusText := "Forbidden", token := "" } =
      initialSession ∧
    (assocGet initialSession.headers AUTH_HEADER_KEY = none →
      (loginUserState initialSession
          { status := 403, statusText := "Forbidden", token := "" }).token =
        initialSession.token ∧
      assocGet (loginUserState initialSession
          { status := 403, statusText := "Forbidden", token := "" }).headers
          AUTH_HEADER_KEY = none) :=
  login_403_requires_mfa_preserves_store initialSession
    { status := 403, statusText := "Forbidden", token := "" } rfl

/-- The current calendar date as the JavaScript `new Date()` exposes it:
`getFullYear()` and the 0-based `getMonth()`.  The derived default ranges are
modelled at day granularity with a UTC clock, matching
`new Date(y, m, d).toISOString().split("T")[0]` for a UTC host. -/
structure JsDate where
  year : Nat
  month : Nat

def isLeapYear (y : Nat) : Bool :=
  (y % 4 == 0 && !(y % 100 == 0)) || (y % 400 == 0)

/-- Number of days of 0-based month `m` of year `y`, as the JS `Date`
normalization `new Date(y, m + 1, 0).getDate()` yields it. -/
def daysInMonth (y m : Nat) : Nat :=
  if m = 1 then (if isLeapYear y then 29 else 28)
  else if m = 3 ∨ m = 5 ∨ m = 8 ∨ m = 10 then 30
  else 31

def pad2 (n : Nat) : String :=
  if n < 10 then "0" ++ toString n else toString n

def pad4 (n : Nat) : String :=
  if n < 10 then "000" ++ toString n
  else if n < 100 then "00" ++ toString n
  else if n < 1000 then "0" ++ toString n
  else toString n

/-- `toISOString().split("T")[0]` of a date, with `m` 0-based. -/
def isoDate (y m d : Nat) : String :=
  pad4 y ++ "-" ++ pad2 (m + 1) ++ "-" ++ pad2 d

/-- `new Date(y, m, 1)` as an ISO day string. -/
def firstOfMonthISO (t : JsDate) : String := isoDate t.year t.month 1

/-- `new Date(y, m + 1, 0)` (last day of month `m`) as an ISO day string. -/
def lastOfMonthISO (t : JsDate) : String :=
  isoDate t.year t.month (daysInMonth t.year t.month)

/-- The month before `t`, with the year rollover JS `Date` normalization
applies to `new Date(y, m - 1, 1)`. -/
def prevMonth (t : JsDate) : JsDate :=
  if t.month = 0 then { year := t.year - 1, month := 11 }
  else { year := t.year, month := t.month - 1 }

/-- The month after `t`, with the year rollover JS `Date` normalization
applies to `new Date(y, m + 2, 0)`. -/
def nextMonth (t : JsDate) : JsDate :=
  if t.month = 11 then { year := t.year + 1, month := 0 }
  else { year := t.year, month := t.month + 1 }

/-- A JS string array value. -/
def strArr (xs : List String) : GqlVal := GqlVal.arr (xs.map GqlVal.str)

/-- A possibly-null JS string value. -/
def optStrVal : Option String → GqlVal
  | none => GqlVal.null
  | some s => GqlVal.str s

/-- One conditional property assignment `if (x !== null) o.k = x` for an
optional boolean parameter. -/
def optBoolField (k : String) : Option Bool → List (String × GqlVal)
  | some b => [(k, GqlVal.bool b)]
  | none => []

/-- The validation message every date-pair check in api.js throws. -/
def dateRangeErrMsg : String :=
  "You must specify both a startDate and endDate, not just one of them."

/-- api.js `GetTransactionsList` query document; its field selections are an
opaque remote-schema surface and are elided here. -/
def getTransactionsListQuery : String :=
  "query GetTransactionsList($offset: Int, $limit: Int, $filters: TransactionFilterInput, $orderBy: TransactionOrdering)"

/-- api.js `GetJointPlanningData` query document (selection set elided). -/
def getJointPlanningDataQuery : String :=
  "query GetJointPlanningData($startDate: Date!, $endDate: Date!, $useLegacyGoals: Boolean!, $useV2Goals: Boolean!)"

/-- api.js `Web_GetCashFlowPage` query document of `getCashflow`
(selection set with byCategory, byCategoryGroup, byMerchant and summary
aggregates, elided). -/
def cashFlowPageQuery : String :=
  "query Web_GetCashFlowPage($filters: TransactionFilterInput) for getCashflow"

/-- api.js `Web_GetCashFlowPage` query document of `getCashflowSummary`
(summary-only selection set, elided). -/
def cashFlowSummaryPageQuery : String :=
  "query Web_GetCashFlowPage($filters: TransactionFilterInput) for getCashflowSummary"

/-- api.js `Web_GetUpcomingRecurringTransactionItems` query document
(selection set elided). -/
def recurringTransactionItemsQuery : String :=
  "query Web_GetUpcomingRecurringTransactionItems($startDate: Date!, $endDate: Date!, $filters: RecurringTransactionFilter)"

/-- The named-parameter object of api.js `getTransactions`, with its default
values. -/
structure GetTransactionsArgs where
  limit : Int := 100
  offset : Int := 0
  startDate : Option String := none
  endDate : Option String := none
  search : String := ""
  categoryIds : List String := []
  accountIds : List String := []
  tagIds : List String := []
  hasAttachments : Option Bool := none
  hasNotes : Option Bool := none
  hiddenFromReports : Option Bool := none
  isSplit : Option Bool := none
  isRecurring : Option Bool := none
  importedFromMint : Option Bool := none
  syncedFromInstitution : Option Bool := none

/-- api.js `getTransactions`: builds the filters object, appends each
non-null optional flag in source order, then requires the start/end dates to
be supplied both-or-neither (truthiness test); no default date range is
derived, absent dates simply leave the filters without a date restriction. -/
def getTransactions (hs : List (String × String)) (a : GetTransactionsArgs) :
    Except Exn RequestDescriptor :=
  let fs :=
    [("search", GqlVal.str a.search), ("categories", strArr a.categoryIds),
     ("accounts", strArr a.accountIds), ("tags", strArr a.tagIds)]
    ++ optBoolField "hasAttachments" a.hasAttachments
    ++ optBoolField "hasNotes" a.hasNotes
    ++ optBoolField "hideFromReports" a.hiddenFromReports
    ++ optBoolField "isRecurring" a.isRecurring
    ++ optBoolField "isSplit" a.isSplit
    ++ optBoolField "importedFromMint" a.importedFromMint
    ++ optBoolField "syncedFromInstitution" a.syncedFromInstitution
  if jsTruthy a.startDate && jsTruthy a.endDate then
    gqlCall hs "GetTransactionsList" (GqlVal.str getTransactionsListQuery)
      (GqlVal.obj [("offset", GqlVal.int a.offset), ("limit", GqlVal.int a.limit),
        ("orderBy", GqlVal.str "date"),
        ("filters", GqlVal.obj (fs ++
          [("startDate", optStrVal a.startDate), ("endDate", optStrVal a.endDate)]))])
  else if jsTruthy a.startDate || jsTruthy a.endDate then
    Except.error (Exn.jsError dateRangeErrMsg)
  else
    gqlCall hs "GetTransactionsList" (GqlVal.str getTransactionsListQuery)
      (GqlVal.obj [("offset", GqlVal.int a.offset), ("limit", GqlVal.int a.limit),
        ("orderBy", GqlVal.str "date"), ("filters", GqlVal.obj fs)])

/-- api.js `getBudgets`: both dates absent derives the default range (first
day of last month through last day of next month); exactly one absent is a
validation error; otherwise the supplied pair is used. -/
def getBudgets (hs : List (String × String)) (today : JsDate)
    (startDate endDate : Option String) (useLegacyGoals useV2Goals : Bool) :
    Except Exn RequestDescriptor :=
  if !(jsTruthy startDate) && !(jsTruthy endDate) then
    gqlCall hs "GetJointPlanningData" (GqlVal.str getJointPlanningDataQuery)
      (GqlVal.obj [("startDate", GqlVal.str (firstOfMonthISO (prevMonth today))),
        ("endDate", GqlVal.str (lastOfMonthISO (nextMonth today))),
        ("useLegacyGoals", GqlVal.bool useLegacyGoals),
        ("useV2Goals", GqlVal.bool useV2Goals)])
  else if !(jsTruthy startDate) || !(jsTruthy endDate) then
    Except.error (Exn.jsError dateRangeErrMsg)
  else
    gqlCall hs "GetJointPlanningData" (GqlVal.str getJointPlanningDataQuery)
      (GqlVal.obj [("startDate", optStrVal startDate),
        ("endDate", optStrVal endDate),
        ("useLegacyGoals", GqlVal.bool useLegacyGoals),
        ("useV2Goals", GqlVal.bool useV2Goals)])

/-- api.js `getCashflow`: a supplied date pair goes into the filters, exactly
one supplied is a validation error, and neither supplied derives the current
calendar month. -/
def getCashflow (hs : List (String × String)) (today : JsDate) (limit : Int)
    (startDate endDate : Option String) : Except Exn RequestDescriptor :=
  let baseFilters :=
    [("search", GqlVal.str ""), ("categories", GqlVal.arr []),
     ("accounts", GqlVal.arr []), ("tags", GqlVal.arr [])]
  if jsTruthy startDate && jsTruthy endDate then
    gqlCall hs "Web_GetCashFlowPage" (GqlVal.str cashFlowPageQuery)
      (GqlVal.obj [("limit", GqlVal.int limit), ("orderBy", GqlVal.str "date"),
        ("filters", GqlVal.obj (baseFilters ++
          [("startDate", optStrVal startDate), ("endDate", optStrVal endDate)]))])
  else if jsTruthy startDate || jsTruthy endDate then
    Except.error (Exn.jsError dateRangeErrMsg)
  else
    gqlCall hs "Web_GetCashFlowPage" (GqlVal.str cashFlowPageQuery)
      (GqlVal.obj [("limit", GqlVal.int limit), ("orderBy", GqlVal.str "date"),
        ("filters", GqlVal.obj (baseFilters ++
          [("startDate", GqlVal.str (firstOfMonthISO today)),
           ("endDate", GqlVal.str (lastOfMonthISO today))]))])

/-- api.js `getCashflowSummary`: identical parameter handling to
`getCashflow` with the summary-only query document. -/
def getCashflowSummary (hs : List (String × String)) (today : JsDate)
    (limit : Int) (startDate endDate : Option String) :
    Except Exn RequestDescriptor :=
  let baseFilters :=
    [("search", GqlVal.str ""), ("categories", GqlVal.arr []),
     ("accounts", GqlVal.arr []), ("tags", GqlVal.arr [])]
  if jsTruthy startDate && jsTruthy endDate then
    gqlCall hs "Web_GetCashFlowPage" (GqlVal.str cashFlowSummaryPageQuery)
      (GqlVal.obj [("limit", GqlVal.int limit), ("orderBy", GqlVal.str "date"),
        ("filters", GqlVal.obj (baseFilters ++
          [("startDate", optStrVal startDate), ("endDate", optStrVal endDate)]))])
  else if jsTruthy startDate || jsTruthy endDate then
    Except.error (Exn.jsError dateRangeErrMsg)
  else
    gqlCall hs "Web_GetCashFlowPage" (GqlVal.str cashFlowSummaryPageQuery)
      (GqlVal.obj [("limit", GqlVal.int limit), ("orderBy", GqlVal.str "date"),
        ("filters", GqlVal.obj (baseFilters ++
          [("startDate", GqlVal.str (firstOfMonthISO today)),
           ("endDate", GqlVal.str (lastOfMonthISO today))]))])

/-- api.js `getRecurringTransactions`: a strict null comparison rejects a
half-supplied pair, both absent derives the current calendar month, and a
supplied pair is passed through. -/
def getRecurringTransactions (hs : List (String × String)) (today : JsDate)
    (startDate endDate : Option String) : Except Exn RequestDescriptor :=
  if startDate.isNone != endDate.isNone then
    Except.error (Exn.jsError dateRangeErrMsg)
  else if startDate.isNone && endDate.isNone then
    gqlCall hs "Web_GetUpcomingRecurringTransactionItems"
      (GqlVal.str recurringTransactionItemsQuery)
      (GqlVal.obj [("startDate", GqlVal.str (firstOfMonthISO today)),
        ("endDate", GqlVal.str (lastOfMonthISO today))])
  else
    gqlCall hs "Web_GetUpcomingRecurringTransactionItems"
      (GqlVal.str recurringTransactionItemsQuery)
      (GqlVal.obj [("startDate", optStrVal startDate),
        ("endDate", optStrVal endDate)])

/-- Claim C3: for every operation accepting an optional start/end date pair
(getTransactions, getBudgets, getCashflow, getCashflowSummary,
getRecurringTransactions), supplying exactly one of the two dates raises the
validation error and no request is dispatched (the error carries the exact
message of the source); supplying neither lets the operation proceed with its
derived default range (getBudgets: first of last month through last of next
month; the cashflow pair and getRecurringTransactions: the current calendar
month; getTransactions: no date restriction). -/
theorem date_range_validation (t : String) (today : JsDate) (d : String)
    (hd : d ≠ "") :
    (getTransactions (authHeaders t) { startDate := some d } =
      Except.error (Exn.jsError dateRangeErrMsg)) ∧
    (getTransactions (authHeaders t) { endDate := some d } =
      Except.error (Exn.jsError dateRangeErrMsg)) ∧
    (getBudgets (authHeaders t) today (some d) none false true =
      Except.error (Exn.jsError dateRangeErrMsg)) ∧
    (getBudgets (authHeaders t) today none (some d) false true =
      Except.error (Exn.jsError dateRangeErrMsg)) ∧
    (getCashflow (authHeaders t) today 100 (some d) none =
      Except.error (Exn.jsError dateRangeErrMsg)) ∧
    (getCashflow (authHeaders t) today 100 none (some d) =
      Except.error (Exn.jsError dateRangeErrMsg)) ∧
    (getCashflowSummary (authHeaders t) today 100 (some d) none =
      Except.error (Exn.jsError dateRangeErrMsg)) ∧
    (getCashflowSummary (authHeaders t) today 100 none (some d) =
      Except.error (Exn.jsError dateRangeErrMsg)) ∧
    (getRecurringTransactions (authHeaders t) today (some d) none =
      Except.error (Exn.jsError dateRangeErrMsg)) ∧
    (getRecurringTransactions (authHeaders t) today none (some d) =
      Except.error (Exn.jsError dateRangeErrMsg)) ∧
    (getTransactions (authHeaders t) {} = Except.ok
      { operationName := "GetTransactionsList",
        query := GqlVal.str getTransactionsListQuery,
        vars := GqlVal.obj [("offset", GqlVal.int 0), ("limit", GqlVal.int 100),
          ("orderBy", GqlVal.str "date"),
          ("filters", GqlVal.obj [("search", GqlVal.str ""),
            ("categories", GqlVal.arr []), ("accounts", GqlVal.arr []),
            ("tags", GqlVal.arr [])])],
        headers := authHeaders t }) ∧
    (getBudgets (authHeaders t) today none none false true = Except.ok
      { operationName := "GetJointPlanningData",
        query := GqlVal.str getJointPlanningDataQuery,
        vars := GqlVal.obj
          [("startDate", GqlVal.str (firstOfMonthISO (prevMonth today))),
           ("endDate", GqlVal.str (lastOfMonthISO (nextMonth today))),
           ("useLegacyGoals", GqlVal.bool false),
           ("useV2Goals", GqlVal.bool true)],
        headers := authHeaders t }) ∧
    (getCashflow (authHeaders t) today 100 none none = Except.ok
      { operationName := "Web_GetCashFlowPage",
        query := GqlVal.str cashFlowPageQuery,
        vars := GqlVal.obj [("limit", GqlVal.int 100),
          ("orderBy", GqlVal.str "date"),
          ("filters", GqlVal.obj [("search", GqlVal.str ""),
            ("categories", GqlVal.arr []), ("accounts", GqlVal.arr []),
            ("tags", GqlVal.arr []),
            ("startDate", GqlVal.str (firstOfMonthISO today)),
            ("endDate", GqlVal.str (lastOfMonthISO today))])],
        headers := authHeaders t }) ∧
    (getCashflowSummary (authHeaders t) today 100 none none = Except.ok
      { operationName := "Web_GetCashFlowPage",
        query := GqlVal.str cashFlowSummaryPageQuery,
        vars := GqlVal.obj [("limit", GqlVal.int 100),
          ("orderBy", GqlVal.str "date"),
          ("filters", GqlVal.obj [("search", GqlVal.str ""),
            ("categories", GqlVal.arr []), ("accounts", GqlVal.arr []),
            ("tags", GqlVal.arr []),
            ("startDate", GqlVal.str (firstOfMonthISO today)),
            ("endDate", GqlVal.str (lastOfMonthISO today))])],
        headers := authHeaders t }) ∧
    (getRecurringTransactions (authHeaders t) today none none = Except.ok
      { operationName := "Web_GetUpcomingRecurringTransactionItems",
        query := GqlVal.str recurringTransactionItemsQuery,
        vars := GqlVal.obj
          [("startDate", GqlVal.str (firstOfMonthISO today)),
           ("endDate", GqlVal.str (lastOfMonthISO today))],
        headers := authHeaders t }) := by
  have hbeq : (d == "") = false := beq_eq_false_iff_ne.mpr hd
  refine ⟨?_, ?_, ?_, ?_, ?_, ?_, ?_, ?_, ?_, ?_, ?_, ?_, ?_, ?_, ?_⟩
  · simp [getTransactions, jsTruthy, hbeq]
  · simp [getTransactions, jsTruthy, hbeq]
  · simp [getBudgets, jsTruthy, hbeq]
  · simp [getBudgets, jsTruthy, hbeq]
  · simp [getCashflow, jsTruthy, hbeq]
  · simp [getCashflow, jsTruthy, hbeq]
  · simp [getCashflowSummary, jsTruthy, hbeq]
  · simp [getCashflowSummary, jsTruthy, hbeq]
  · simp [getRecurringTransactions]
  · simp [getRecurringTransactions]
  · simp [getTransactions, jsTruthy, optBoolField, strArr, gqlCall_authHeaders]
  · simp [getBudgets, jsTruthy, gqlCall_authHeaders]
  · simp [getCashflow, jsTruthy, gqlCall_authHeaders]
  · simp [getCashflowSummary, jsTruthy, gqlCall_authHeaders]
  · simp [getRecurringTransactions, gqlCall_authHeaders]

/-- Witness for C3 at a concrete token, date and current day. -/
theorem date_range_validation_witness :
    getTransactions (authHeaders "tok") { startDate := some "2024-03-01" } =
      Except.error (Exn.jsError dateRangeErrMsg) ∧
    getRecurringTransactions (authHeaders "tok") { year := 2024, month := 2 }
        none none = Except.ok
      { operationName := "Web_GetUpcomingRecurringTransactionItems",
        query := GqlVal.str recurringTransactionItemsQuery,
        vars := GqlVal.obj
          [("startDate", GqlVal.str
              (firstOfMonthISO { year := 2024, month := 2 })),
           ("endDate", GqlVal.str
              (lastOfMonthISO { year := 2024, month := 2 }))],
        headers := authHeaders "tok" } := by
  have h := date_range_validation "tok" { year := 2024, month := 2 }
    "2024-03-01" (by decide)
  exact ⟨h.1, h.2.2.2.2.2.2.2.2.2.2.2.2.2.2⟩

/-- The payload a delete-style mutation reports: the boolean `deleted` flag
and the structured `errors` list, both opaque remote data. -/
structure DeletePayload where
  deleted : Bool
  errors : GqlVal

/-- api.js `Common_DeleteTransactionMutation` document (selections elided). -/
def deleteTransactionMutationQuery : String :=
  "mutation Common_DeleteTransactionMutation($input: DeleteTransactionMutationInput!)"

/-- api.js `Web_DeleteCategory` document (selections elided). -/
def deleteCategoryMutationQuery : String :=
  "mutation Web_DeleteCategory($id: UUID!, $moveToCategoryId: UUID)"

/-- api.js `Common_DeleteAccount` document (selections elided). -/
def deleteAccountMutationQuery : String :=
  "mutation Common_DeleteAccount($id: UUID!)"

/-- api.js `deleteTransaction`: dispatches the mutation and, when the
response reports a falsy `deleted`, raises `RequestFailedException` carrying
the response's `errors` list; otherwise returns true.  The remote payload
for the dispatched call is passed as `resp`. -/
def deleteTransaction (hs : List (String × String)) (transactionId : String)
    (resp : DeletePayload) : Except Exn Bool :=
  match gqlCall hs "Common_DeleteTransactionMutation"
      (GqlVal.str deleteTransactionMutationQuery)
      (GqlVal.obj [("input",
        GqlVal.obj [("transactionId", GqlVal.str transactionId)])]) with
  | Except.error e => Except.error e
  | Except.ok _ =>
    if resp.deleted then Except.ok true
    else Except.error (Exn.requestFailed resp.errors)

/-- api.js `deleteTransactionCategory`: same `deleted`-flag inspection as
`deleteTransaction`, against the `deleteCategory` payload. -/
def deleteTransactionCategory (hs : List (String × String)) (categoryId : String)
    (resp : DeletePayload) : Except Exn Bool :=
  match gqlCall hs "Web_DeleteCategory" (GqlVal.str deleteCategoryMutationQuery)
      (GqlVal.obj [("id", GqlVal.str categoryId)]) with
  | Except.error e => Except.error e
  | Except.ok _ =>
    if resp.deleted then Except.ok true
    else Except.error (Exn.requestFailed resp.errors)

/-- api.js `deleteAccount`: dispatches the mutation and returns the decoded
response as-is; unlike `deleteTransaction` and `deleteTransactionCategory`
it performs no inspection of the `deleted` flag. -/
def deleteAccount (hs : List (String × String)) (accountId : String)
    (resp : DeletePayload) : Except Exn DeletePayload :=
  match gqlCall hs "Common_DeleteAccount" (GqlVal.str deleteAccountMutationQuery)
      (GqlVal.obj [("id", GqlVal.str accountId)]) with
  | Except.error e => Except.error e
  | Except.ok _ => Except.ok resp

/-- A concrete remote payload reporting a failed deletion. -/
def failingDeleteResp : DeletePayload :=
  { deleted := false,
    errors := GqlVal.arr [GqlVal.obj
      [("message", GqlVal.str "Cannot delete"),
       ("code", GqlVal.str "delete_error")]] }

/-- Counterexample to claim C4 as stated: on a response reporting
`deleted: false`, `deleteAccount` returns the falsy payload to the caller
instead of raising a `RequestFailedException` carrying the error list. -/
theorem deleteAccount_ignores_deleted_flag :
    deleteAccount (authHeaders "tok") "acct1" failingDeleteResp =
      Except.ok failingDeleteResp ∧
    deleteAccount (authHeaders "tok") "acct1" failingDeleteResp ≠
      Except.error (Exn.requestFailed failingDeleteResp.errors) :=
  ⟨rfl, fun h => Except.noConfusion h⟩

/-- Claim C4 (amended): `deleteTransaction` and `deleteTransactionCategory`
raise `RequestFailedException` carrying the remote response's structured
error list when the response reports `deleted: false`; `deleteAccount`
returns the response payload unchanged without inspecting the flag. -/
theorem deleted_flag_mutation_failure (t tid cid aid : String)
    (resp : DeletePayload) (hfail : resp.deleted = false) :
    deleteTransaction (authHeaders t) tid resp =
      Except.error (Exn.requestFailed resp.errors) ∧
    deleteTransactionCategory (authHeaders t) cid resp =
      Except.error (Exn.requestFailed resp.errors) ∧
    deleteAccount (authHeaders t) aid resp = Except.ok resp := by
  refine ⟨?_, ?_, ?_⟩ <;>
    simp [deleteTransaction, deleteTransactionCategory, deleteAccount,
      gqlCall_authHeaders, hfail]

/-- Witness for C4's amended theorem at a concrete failing payload. -/
theorem deleted_flag_mutation_failure_witness :
    deleteTransaction (authHeaders "tok") "t1" failingDeleteResp =
      Except.error (Exn.requestFailed failingDeleteResp.errors) ∧
    deleteTransactionCategory (authHeaders "tok") "c1" failingDeleteResp =
      Except.error (Exn.requestFailed failingDeleteResp.errors) ∧
    deleteAccount (authHeaders "tok") "a1" failingDeleteResp =
      Except.ok failingDeleteResp :=
  deleted_flag_mutation_failure "tok" "t1" "c1" "a1" failingDeleteResp rfl

/-- The multipart form an account-balance upload would post: the CSV file
and its account mapping.  No value of this type is ever produced by
`uploadAccountBalanceHistory`, which fails before reaching the post. -/
structure UploadRequest where
  accountId : String
  csvContent : String

/-- api.js `uploadAccountBalanceHistory`: validates that the two arguments
are truthy, raising `RequestFailedException` otherwise, and then evaluates
`axios.post(...)` — but api.js neither imports nor defines `axios`, so that
name lookup raises `ReferenceError: axios is not defined` and no request is
ever dispatched.  The credential store is never consulted on either path:
the outcome is the same with or without a stored token. -/
def uploadAccountBalanceHistory (accountId csvContent : String) :
    Except Exn UploadRequest :=
  if accountId == "" || csvContent == "" then
    Except.error (Exn.requestFailed
      (GqlVal.str "accountId and csvContent cannot be empty"))
  else
    Except.error (Exn.referenceError "axios is not defined")

/-- Counterexample to claim C5 as stated: with the credential store holding
no token (the function never consults it), `uploadAccountBalanceHistory`
fails with a `ReferenceError` — api.js has no axios binding — and not with
the `LoginFailedException` the claim requires of a tokenless operation. -/
theorem upload_raises_reference_error :
    uploadAccountBalanceHistory "acct1" "2024-01-01,100.0" =
      Except.error (Exn.referenceError "axios is not defined") ∧
    uploadAccountBalanceHistory "acct1" "2024-01-01,100.0" ≠
      Except.error (Exn.loginFailed
        "Make sure you call login() first or provide a session token!") :=
  ⟨rfl, fun h => Exn.noConfusion (Except.error.inj h)⟩

/-- Claim C5 (amended): every GraphQL query/mutation is dispatched through
`gqlCall`, which fails with `LoginFailedException` before any request is
issued whenever the credential store reports no Authorization header;
`uploadAccountBalanceHistory` never consults the credential store and —
tokenless or not — never dispatches at all: past its argument validation it
raises `ReferenceError`, since api.js has no axios binding.  Hence no
request descriptor is ever dispatched tokenless, but the upload's failure is
a `ReferenceError`, not the claimed `LoginFailedException`. -/
theorem tokenless_requests_never_dispatched (hs : List (String × String))
    (op : String) (q v : GqlVal) (a c : String)
    (hnone : assocGet hs AUTH_HEADER_KEY = none) (ha : a ≠ "") (hc : c ≠ "") :
    gqlCall hs op q v = Except.error (Exn.loginFailed
      "Make sure you call login() first or provide a session token!") ∧
    uploadAccountBalanceHistory a c =
      Except.error (Exn.referenceError "axios is not defined") ∧
    ∀ (a2 c2 : String) (r : UploadRequest),
      uploadAccountBalanceHistory a2 c2 ≠ Except.ok r := by
  refine ⟨?_, ?_, ?_⟩
  · simp [gqlCall, hnone]
  · simp [uploadAccountBalanceHistory, beq_eq_false_iff_ne.mpr ha,
      beq_eq_false_iff_ne.mpr hc]
  · intro a2 c2 r h
    unfold uploadAccountBalanceHistory at h
    split at h <;> exact Except.noConfusion h

/-- Witness for C5's amended theorem: the initial store has no Authorization
entry. -/
theorem tokenless_requests_never_dispatched_witness :
    gqlCall initialSession.headers "GetAccounts" GqlVal.null GqlVal.null =
      Except.error (Exn.loginFailed
        "Make sure you call login() first or provide a session token!") ∧
    uploadAccountBalanceHistory "acct1" "balances.csv" =
      Except.error (Exn.referenceError "axios is not defined") ∧
    ∀ (a2 c2 : String) (r : UploadRequest),
      uploadAccountBalanceHistory a2 c2 ≠ Except.ok r :=
  tokenless_requests_never_dispatched initialSession.headers "GetAccounts"
    GqlVal.null GqlVal.null "acct1" "balances.csv" rfl
    (by decide) (by decide)

/-- api.js `deleteTransactionCategories`: `Promise.all` over one deletion per
input id, each with `.catch` resolving a rejection to its error value, so the
settled array holds one outcome per id in input order and a failed deletion
does not abort the rest.  `respOf` gives the remote payload each individual
deletion observes. -/
def deleteTransactionCategories (hs : List (String × String))
    (respOf : String → DeletePayload) (categoryIds : List String) :
    List (Except Exn Bool) :=
  categoryIds.map (fun id => deleteTransactionCategory hs id (respOf id))

/-- Claim C8: for every input list of category ids, with arbitrary per-id
success or failure, the batch result has exactly one outcome per input id in
input order — the per-id success value or the per-id error — independent of
the other ids' outcomes, so no failure aborts the remainder. -/
theorem batch_delete_per_id_outcomes (hs : List (String × String))
    (respOf : String → DeletePayload) (categoryIds : List String) :
    (deleteTransactionCategories hs respOf categoryIds).length =
      categoryIds.length ∧
    ∀ i : Nat, (deleteTransactionCategories hs respOf categoryIds)[i]? =
      (categoryIds[i]?).map
        (fun id => deleteTransactionCategory hs id (respOf id)) := by
  constructor
  · simp [deleteTransactionCategories]
  · intro i
    simp [deleteTransactionCategories]

/-- api.js `GetTransactionDrawer` document (selections elided). -/
def transactionDrawerQuery : String :=
  "query GetTransactionDrawer($id: UUID!, $redirectPosted: Boolean)"

/-- api.js `getTransactionDetails`: builds the variables object with `id` and
`redirectPosted` and then calls `gqlCall("GetTransactionDrawer", variables,
query)` — the variables object is passed in `gqlCall`'s `graphqlQuery`
parameter position and the query document in its `variables` position,
exactly as in the source's argument order. -/
def getTransactionDetails (hs : List (String × String))
    (transactionId : String) (redirectPosted : Bool) :
    Except Exn RequestDescriptor :=
  gqlCall hs "GetTransactionDrawer"
    (GqlVal.obj [("id", GqlVal.str transactionId),
      ("redirectPosted", GqlVal.bool redirectPosted)])
    (GqlVal.str transactionDrawerQuery)

/-- Claim C9, evaluated at the failing input: `getTransactionDetails`
dispatches a descriptor whose query position holds the variables object and
whose variables position holds the query document — not the operation's
declared query document with a declared-parameter mapping. -/
theorem getTransactionDetails_swapped_descriptor :
    getTransactionDetails (authHeaders "tok") "txn1" true = Except.ok
      { operationName := "GetTransactionDrawer",
        query := GqlVal.obj [("id", GqlVal.str "txn1"),
          ("redirectPosted", GqlVal.bool true)],
        vars := GqlVal.str transactionDrawerQuery,
        headers := authHeaders "tok" } ∧
    GqlVal.obj [("id", GqlVal.str "txn1"),
      ("redirectPosted", GqlVal.bool true)] ≠
      GqlVal.str transactionDrawerQuery :=
  ⟨rfl, fun h => GqlVal.noConfusion h⟩

/-- One account entry of the `ForceRefreshAccountsQuery` response. -/
structure AccountStatus where
  id : String
  hasSyncInProgress : Bool

/-- api.js `ForceRefreshAccountsQuery` document (selections elided). -/
def forceRefreshAccountsQuery : String :=
  "query ForceRefreshAccountsQuery"

/-- api.js `isAccountsRefreshComplete`: dispatches the status query (with no
variables), raises `RequestFailedException` when the response has no
accounts array, and otherwise folds `every` over the accounts: with a
truthy `accountIds` each account must have no sync in progress and an id
contained in `accountIds`; with `accountIds` null only the sync flag is
checked. -/
def isAccountsRefreshComplete (hs : List (String × String))
    (accountIds : Option (List String))
    (respAccounts : Option (List AccountStatus)) : Except Exn Bool :=
  match gqlCall hs "ForceRefreshAccountsQuery"
      (GqlVal.str forceRefreshAccountsQuery) (GqlVal.obj []) with
  | Except.error e => Except.error e
  | Except.ok _ =>
    match respAccounts with
    | none => Except.error (Exn.requestFailed
        (GqlVal.str "Unable to request status of refresh"))
    | some accounts =>
      match accountIds with
      | some ids => Except.ok (accounts.all
          (fun x => !x.hasSyncInProgress && ids.contains x.id))
      | none => Except.ok (accounts.all (fun x => !x.hasSyncInProgress))

/-- Claim C10: with a non-null `accountIds` list the check returns true iff
every account of the response has no sync in progress and an id contained in
`accountIds` (so any account outside `accountIds` forces false); with
`accountIds` null it returns true iff no account has a sync in progress. -/
theorem isAccountsRefreshComplete_characterization (t : String)
    (ids : List String) (accounts : List AccountStatus) :
    (isAccountsRefreshComplete (authHeaders t) (some ids) (some accounts) =
        Except.ok true ↔
      ∀ a ∈ accounts, a.hasSyncInProgress = false ∧ a.id ∈ ids) ∧
    (isAccountsRefreshComplete (authHeaders t) none (some accounts) =
        Except.ok true ↔
      ∀ a ∈ accounts, a.hasSyncInProgress = false) := by
  constructor <;>
    simp [isAccountsRefreshComplete, gqlCall_authHeaders, List.all_eq_true]

/-- The polling loop of api.js `requestAccountsRefreshAndWait`, after the
refresh trigger: `start = Date.now(); refreshed = false; while (!refreshed
and Date.now() <= start + timeout * 1000) first await a delay of
delay * 1000 ms, then poll the status check`.  Time is modelled as elapsed
milliseconds since `start` with instantaneous polls; `status k` is the result
of the k-th status check, `polls` the number of checks already made, `t` the
elapsed time.  The result carries the returned boolean and the elapsed time
at return; `fuel` bounds the recursion and the claim theorems show the bound
chosen by `requestAccountsRefreshAndWait` is never exhausted. -/
def waitFuel (status : Nat → Bool) (timeoutMs delayMs : Nat) :
    Nat → Nat → Nat → Option (Bool × Nat)
  | 0, _, _ => none
  | fuel + 1, polls, t =>
    if t ≤ timeoutMs then
      if status (polls + 1) then some (true, t + delayMs)
      else waitFuel status timeoutMs delayMs fuel (polls + 1) (t + delayMs)
    else some (false, t)

/-- api.js `requestAccountsRefreshAndWait` with its status checks abstracted
to the stub `status` (the refresh-trigger call preceding the loop does not
influence the loop's result).  The fuel `timeout / delay + 2` strictly
exceeds the possible number of loop iterations whenever `delay` is
positive. -/
def requestAccountsRefreshAndWait (status : Nat → Bool)
    (timeout delay : Nat) : Option (Bool × Nat) :=
  waitFuel status (timeout * 1000) (delay * 1000) (timeout / delay + 2) 0 0

theorem waitFuel_reaches_true (N T d : Nat) :
    ∀ (m fuel p t : Nat), p + m = N → m < fuel → t + m * d ≤ T →
    waitFuel (fun k => decide (N < k)) T d fuel p t =
      some (true, t + (m + 1) * d) := by
  intro m
  induction m with
  | zero =>
    intro fuel p t hpm hfuel ht
    obtain ⟨f, rfl⟩ : ∃ f, fuel = f + 1 := ⟨fuel - 1, by omega⟩
    have ht0 : t ≤ T := by omega
    have hdec : decide (N < p + 1) = true := decide_eq_true (by omega)
    simp [waitFuel, ht0, hdec]
  | succ m ih =>
    intro fuel p t hpm hfuel ht
    obtain ⟨f, rfl⟩ : ∃ f, fuel = f + 1 := ⟨fuel - 1, by omega⟩
    have ht0 : t ≤ T := by
      have h1 : t ≤ t + (m + 1) * d := Nat.le_add_right _ _
      exact le_trans h1 ht
    have hdec : decide (N < p + 1) = false := decide_eq_false (by omega)
    have harg : t + d + m * d ≤ T := by
      have h1 : t + d + m * d = t + (m + 1) * d := by ring
      rw [h1]; exact ht
    have hrec := ih f (p + 1) (t + d) (by omega) (by omega) harg
    simp [waitFuel, ht0, hdec, hrec]
    ring

theorem waitFuel_times_out (N T d : Nat) :
    ∀ (fuel p t : Nat), t ≤ T + d → T + d < t + fuel * d →
    (∀ i, t + i * d ≤ T → p + i + 1 ≤ N) →
    ∃ e, waitFuel (fun k => decide (N < k)) T d fuel p t = some (false, e) ∧
      T < e := by
  intro fuel
  induction fuel with
  | zero =>
    intro p t hup hlow hpoll
    exfalso
    simp only [Nat.zero_mul, Nat.add_zero] at hlow
    omega
  | succ f ih =>
    intro p t hup hlow hpoll
    by_cases htT : t ≤ T
    · have hle : p + 1 ≤ N := hpoll 0 (by simpa using htT)
      have hdec : decide (N < p + 1) = false := decide_eq_false (by omega)
      have hup2 : t + d ≤ T + d := by omega
      have hlow2 : T + d < (t + d) + f * d := by
        calc T + d < t + (f + 1) * d := hlow
          _ = (t + d) + f * d := by ring
      have hpoll2 : ∀ i, (t + d) + i * d ≤ T → (p + 1) + i + 1 ≤ N := by
        intro i hi
        have h3 : t + (i + 1) * d ≤ T := by
          have h4 : t + (i + 1) * d = (t + d) + i * d := by ring
          rw [h4]; exact hi
        have h5 := hpoll (i + 1) h3
        omega
      obtain ⟨e, he, hTe⟩ := ih (p + 1) (t + d) hup2 hlow2 hpoll2
      refine ⟨e, ?_, hTe⟩
      simp [waitFuel, htT, hdec, he]
    · refine ⟨t, ?_, by omega⟩
      simp [waitFuel, htT]

/-- Claim C7: against a status check reporting in-progress for the first `N`
polls and complete from poll `N + 1` onward, if `timeout ≥ N * delay` the
helper returns true with elapsed time `(N + 1) * delay` seconds (one delay
per poll, about `N * delay`); if `timeout < N * delay` it returns false at an
elapsed time strictly past the timeout.  In both cases it returns a boolean —
a timeout is not an error. -/
theorem polling_wait_behavior (N timeout delay : Nat) (hdelay : 0 < delay) :
    (N * delay ≤ timeout →
      requestAccountsRefreshAndWait (fun k => decide (N < k)) timeout delay =
        some (true, (N + 1) * (delay * 1000))) ∧
    (timeout < N * delay →
      ∃ e, requestAccountsRefreshAndWait (fun k => decide (N < k)) timeout
          delay = some (false, e) ∧ timeout * 1000 < e) := by
  constructor
  · intro hle
    have hfuel : N < timeout / delay + 2 := by
      have h1 : N ≤ timeout / delay := (Nat.le_div_iff_mul_le hdelay).mpr hle
      omega
    have harg : 0 + N * (delay * 1000) ≤ timeout * 1000 := by
      have h1 : N * delay * 1000 ≤ timeout * 1000 :=
        Nat.mul_le_mul_right 1000 hle
      calc 0 + N * (delay * 1000) = N * delay * 1000 := by ring
        _ ≤ timeout * 1000 := h1
    have h := waitFuel_reaches_true N (timeout * 1000) (delay * 1000) N
      (timeout / delay + 2) 0 0 (by omega) hfuel harg
    simpa [requestAccountsRefreshAndWait] using h
  · intro hlt
    have hkey : timeout < (timeout / delay + 1) * delay := by
      have hmlt : timeout % delay < delay := Nat.mod_lt _ hdelay
      calc timeout = delay * (timeout / delay) + timeout % delay :=
            (Nat.div_add_mod timeout delay).symm
        _ < delay * (timeout / delay) + delay := by omega
        _ = (timeout / delay + 1) * delay := by ring
    have hlow : timeout * 1000 + delay * 1000 <
        0 + (timeout / delay + 2) * (delay * 1000) := by
      have h1 : timeout * 1000 < (timeout / delay + 1) * delay * 1000 :=
        (Nat.mul_lt_mul_right (by norm_num)).mpr hkey
      have h2 : timeout * 1000 + delay * 1000 <
          (timeout / delay + 1) * delay * 1000 + delay * 1000 :=
        Nat.add_lt_add_right h1 _
      calc timeout * 1000 + delay * 1000
          < (timeout / delay + 1) * delay * 1000 + delay * 1000 := h2
        _ = 0 + (timeout / delay + 2) * (delay * 1000) := by ring
    have hpoll : ∀ i, 0 + i * (delay * 1000) ≤ timeout * 1000 →
        0 + i + 1 ≤ N := by
      intro i hi
      have h1 : i * delay * 1000 ≤ timeout * 1000 := by
        calc i * delay * 1000 = i * (delay * 1000) := by ring
          _ ≤ timeout * 1000 := by simpa using hi
      have h2 : i * delay ≤ timeout :=
        Nat.le_of_mul_le_mul_right h1 (by norm_num)
      have h3 : i * delay < N * delay := lt_of_le_of_lt h2 hlt
      have h4 : i < N := lt_of_mul_lt_mul_right h3 (Nat.zero_le delay)
      omega
    obtain ⟨e, he, hTe⟩ := waitFuel_times_out N (timeout * 1000)
      (delay * 1000) (timeout / delay + 2) 0 0 (Nat.zero_le _) hlow hpoll
    exact ⟨e, by simpa [requestAccountsRefreshAndWait] using he, hTe⟩

/-- Witness for C7 at concrete poll counts, timeouts and delay: three
in-progress polls with timeout 5 s and delay 1 s complete at 3 s; with
timeout 2 s the helper reports false past 2000 ms. -/
theorem polling_wait_behavior_witness :
    requestAccountsRefreshAndWait (fun k => decide (2 < k)) 5 1 =
      some (true, 3000) ∧
    ∃ e, requestAccountsRefreshAndWait (fun k => decide (3 < k)) 2 1 =
      some (false, e) ∧ 2000 < e :=
  ⟨(polling_wait_behavior 2 5 1 (by decide)).1 (by decide),
   (polling_wait_behavior 3 2 1 (by decide)).2 (by decide)⟩

namespace ClassImpl

/-- Instance state of the standalone `MonarchMoney` class: the `_token`,
`_headers` and `_sessionFile` fields set up by the constructor. -/
structure MonarchMoney where
  token : Option String
  headers : List (String × String)
  sessionFile : String

/-- The parsed content of the persisted session file:
`JSON.stringify` of an object with the single `token` property. -/
structure SessionFileData where
  token : Option String

/-- The member names the `MonarchMoney` class body declares, in source
order, besides the `timeout` and `token` get/set accessor pairs.  The class
declares no `setToken` method. -/
def monarchMoneyMethods : List String :=
  ["constructor", "interactiveLogin", "login", "multiFactorAuthenticate",
   "getAccounts", "getAccountTypeOptions", "getRecentAccountBalances",
   "getAccountSnapshotsByType", "getAggregateSnapshots",
   "createManualAccount", "updateAccount", "deleteAccount",
   "requestAccountsRefresh", "isAccountsRefreshComplete",
   "requestAccountsRefreshAndWait", "getAccountHoldings",
   "getAccountHistory", "getInstitutions", "getBudgets",
   "getSubscriptionDetails", "getTransactionsSummary", "getTransactions",
   "createTransaction", "deleteTransaction", "getTransactionCategories",
   "deleteTransactionCategory", "deleteTransactionCategories",
   "getTransactionCategoryGroups", "createTransactionCategory",
   "createTransactionTag", "getTransactionTags", "setTransactionTags",
   "getTransactionDetails", "getTransactionSplits",
   "updateTransactionSplits", "getCashflow", "getCashflowSummary",
   "updateTransaction", "setBudgetAmount", "uploadAccountBalanceHistory",
   "getRecurringTransactions", "gqlCall", "saveSession", "loadSession",
   "deleteSession", "_loginUser", "_multiFactorAuthenticate"]

/-- Runtime errors the session-persistence methods can raise. -/
inductive JsRuntimeError where
  | typeError (msg : String)
  | fileNotFound (filename : String)

/-- class `saveSession`: writes `JSON.stringify` of an object holding the
current `_token` to the session file.  The file system is an association of
file names to parsed contents. -/
def MonarchMoney.saveSession (mm : MonarchMoney)
    (fs : List (String × SessionFileData)) :
    List (String × SessionFileData) :=
  assocSet fs mm.sessionFile { token := mm.token }

/-- class `loadSession`: reads and parses the session file, then executes
`this.setToken(data.token)`.  The class declares no `setToken` method (see
`monarchMoneyMethods`; its nearest declaration is the `token` property
setter), so the property lookup yields undefined and the call raises
`TypeError` before any token assignment; the following
Authorization-header line is never reached. -/
def MonarchMoney.loadSession (mm : MonarchMoney)
    (fs : List (String × SessionFileData)) :
    Except JsRuntimeError MonarchMoney :=
  match assocGet fs mm.sessionFile with
  | none => Except.error (JsRuntimeError.fileNotFound mm.sessionFile)
  | some _ => Except.error
      (JsRuntimeError.typeError "this.setToken is not a function")

/-- A class instance holding the active token `T`. -/
def mmWithToken : MonarchMoney :=
  { token := some "T",
    headers := [("Client-Platform", "web"), ("Authorization", "Token T")],
    sessionFile := "mm_session.json" }

/-- Claim C6, evaluated at the failing input: the class declares no
`setToken` member, and while `saveSession` does persist the active token
`T`, `loadSession` of the saved file raises a TypeError instead of restoring
`T` into the credential store. -/
theorem session_roundtrip_load_type_error :
    "setToken" ∉ monarchMoneyMethods ∧
    assocGet (mmWithToken.saveSession []) "mm_session.json" =
      some { token := some "T" } ∧
    mmWithToken.loadSession (mmWithToken.saveSession []) =
      Except.error (JsRuntimeError.typeError
        "this.setToken is not a function") :=
  ⟨by decide, rfl, rfl⟩

end ClassImpl

end MonarchApi
